import Mathlib

/-!
Shallow embedding of the Failover-agent-for-Docker repository
(src/config.py, src/monitor.py, src/main.py).

External collaborators (the Docker engine, the system clock, the HTTP
channel to the peer) are modelled as explicit observation values passed
to each embedded operation: a `DockerRes` is the outcome of one
`docker_client.containers.get` call (found with a status string, not
found, or an unexpected error), timestamps are integers standing for the
values returned by `time.time()`, and HTTP outcomes are status codes or
errors.  The mutable fields of `ContainerMonitor` that the code reads and
writes (`role`, `container_start_time`, `container_down_times`) form the
state record; `container_down_times` is a `defaultdict(float)`, so a plain
read of a missing key inserts the default `0.0` entry, which the embedding
reproduces.
-/

namespace FailoverAgent

/-! ## Configuration constants (src/config.py, GENERAL_CONFIG) -/

def heartbeat_interval : Int := 5

def check_heartbeat_interval : Int := 5

def heartbeat_timeout : Int := 20

def startup_grace_period : Int := 20

def restart_grace_period : Int := 30

/-! ## Data model -/

/-- ServerRole enumeration (src/monitor.py). -/
inductive ServerRole
  | PRIMARY
  | BACKUP
  deriving DecidableEq, Repr

/-- Outcome of one `docker_client.containers.get(name)` call together with
the status the returned container object reports: the container is found
with a status string, raises NotFound, or raises some other exception. -/
inductive DockerRes
  | found (status : String)
  | notFound
  | err
  deriving DecidableEq, Repr

/-- Whether a driver observation reports the container as running
(`container.status == "running"`); NotFound and errors report false. -/
def isRunningRes : DockerRes → Bool
  | .found s => s == "running"
  | .notFound => false
  | .err => false

/-- The `container_down_times` map: container name to the timestamp at
which it was first observed down, as an association list. -/
abbrev DownTimes := List (String × Int)

/-- Lookup in the down-times map. -/
def dtLookup : DownTimes → String → Option Int
  | [], _ => none
  | (k, v) :: rest, name => if k = name then some v else dtLookup rest name

/-- Deletion from the down-times map (`del self.container_down_times[name]`). -/
def dtErase : DownTimes → String → DownTimes
  | [], _ => []
  | (k, v) :: rest, name =>
      if k = name then dtErase rest name else (k, v) :: dtErase rest name

/-- The mutable state of a `ContainerMonitor` instance that the embedded
operations read and write. -/
structure MonitorState where
  role : ServerRole
  container_start_time : Int
  container_down_times : DownTimes
  deriving DecidableEq, Repr

/-! ## Status checking (src/monitor.py, `get_container_status`) -/

/-- `ContainerMonitor.get_container_status` (src/monitor.py lines 69-91):
queries the driver; when the container is found running it deletes any
down-time entry, when found not running it records the current time as
down-since if no entry exists yet; NotFound and other errors return false
without touching the map. -/
def get_container_status (name : String) (res : DockerRes) (now : Int)
    (st : MonitorState) : Bool × MonitorState :=
  match res with
  | .found status =>
      if status == "running" then
        (true, { st with container_down_times := dtErase st.container_down_times name })
      else
        match dtLookup st.container_down_times name with
        | some _ => (false, st)
        | none =>
            (false, { st with
              container_down_times := st.container_down_times ++ [(name, now)] })
  | .notFound => (false, st)
  | .err => (false, st)

/-- `ContainerMonitor.should_check_container` (src/monitor.py lines 45-65):
false during the startup grace period, otherwise true exactly when the
driver can resolve the container name. -/
def should_check_container (now : Int) (getRes : DockerRes)
    (st : MonitorState) : Bool :=
  if now - st.container_start_time < startup_grace_period then false
  else
    match getRes with
    | .found _ => true
    | .notFound => false
    | .err => false

/-! ## Health verification (src/monitor.py, `verify_container_health`) -/

/-- One status poll inside `verify_container_health`: the driver
observation and the `time.time()` value at which it happens. -/
structure PollObs where
  res : DockerRes
  t : Int
  deriving DecidableEq, Repr

/-- `consecutive_checks` local constant of `verify_container_health`. -/
def consecutive_checks : Nat := 3

/-- The poll loop of `verify_container_health`: up to `k` consecutive
`get_container_status` calls starting at poll index `i`, short-circuiting
as soon as one reports running.  Returns (saw-running, state, number of
polls performed). -/
def verifyLoop (name : String) (polls : Nat → PollObs) :
    Nat → Nat → MonitorState → Bool × MonitorState × Nat
  | _, 0, st => (false, st, 0)
  | i, k + 1, st =>
      let p := polls i
      let r := get_container_status name p.res p.t st
      if r.1 then (true, r.2, 1)
      else
        let rest := verifyLoop name polls (i + 1) k r.2
        (rest.1, rest.2.1, rest.2.2 + 1)

/-- Result of `verify_container_health`: the returned boolean, the state
afterwards, and the number of status polls that were performed. -/
structure VRes where
  ok : Bool
  st : MonitorState
  npolls : Nat
  deriving DecidableEq, Repr

/-- The part of `verify_container_health` after the initial grace-period
short-circuit: the poll loop followed by the final grace re-check.  The
final read `self.container_down_times[name]` goes through
`defaultdict(float)`: a missing key is inserted with value 0 and 0 is
returned. -/
def verifyAfterGrace (name : String) (polls : Nat → PollObs) (tFinal : Int)
    (st : MonitorState) : VRes :=
  let r := verifyLoop name polls 0 consecutive_checks st
  if r.1 then ⟨true, r.2.1, r.2.2⟩
  else
    match dtLookup r.2.1.container_down_times name with
    | some ds =>
        if restart_grace_period ≤ tFinal - ds then ⟨false, r.2.1, r.2.2⟩
        else ⟨true, r.2.1, r.2.2⟩
    | none =>
        let st2 := { r.2.1 with
          container_down_times := r.2.1.container_down_times ++ [(name, 0)] }
        if restart_grace_period ≤ tFinal - 0 then ⟨false, st2, r.2.2⟩
        else ⟨true, st2, r.2.2⟩

/-- `ContainerMonitor.verify_container_health` (src/monitor.py lines
168-196).  `t0` is the `time.time()` value of the initial grace check,
`polls i` the observation of the i-th status poll, `tFinal` the
`time.time()` value of the final grace re-check. -/
def verify_container_health (name : String) (t0 : Int) (polls : Nat → PollObs)
    (tFinal : Int) (st : MonitorState) : VRes :=
  match dtLookup st.container_down_times name with
  | some ds =>
      if t0 - ds < restart_grace_period then ⟨true, st, 0⟩
      else verifyAfterGrace name polls tFinal st
  | none => verifyAfterGrace name polls tFinal st

/-! ## Stop, notify, role transitions (src/monitor.py) -/

/-- Per-container outcome of the `containers.get(name)` / `stop` pair
inside `stop_all_containers`: true means the calls succeed, false means an
exception is raised. -/
abbrev StopEnv := String → Bool

/-- `ContainerMonitor.stop_all_containers` (src/monitor.py lines 116-125):
stops the containers in order inside one try block; the first exception
aborts the loop and returns false, otherwise true. -/
def stop_all_containers (stopOk : StopEnv) : List String → Bool
  | [] => true
  | c :: rest => if stopOk c then stop_all_containers stopOk rest else false

/-- Outcome of the HTTP POST in `notify_other_server`: a response with a
status code, or a raised exception. -/
inductive NotifyRes
  | resp (code : Int)
  | err
  deriving DecidableEq, Repr

/-- `ContainerMonitor.notify_other_server` (src/monitor.py lines 143-152):
true exactly when the POST to the peers become_primary endpoint returns
status 200; any exception yields false. -/
def notify_other_server : NotifyRes → Bool
  | .resp code => code == 200
  | .err => false

/-- `ContainerMonitor.become_backup` (src/monitor.py lines 154-160): sets
the role to BACKUP, then stops all containers; the stop outcome is only
logged, so it is returned alongside the new state. -/
def become_backup (bkStopOk : StopEnv) (containers : List String)
    (st : MonitorState) : MonitorState × Bool :=
  ({ st with role := ServerRole.BACKUP }, stop_all_containers bkStopOk containers)

/-! ## Startup waiting (src/monitor.py, `wait_for_containers_startup`) -/

/-- Events recording which externally visible operations an embedded code
path performed, in order. -/
inductive Event
  | statusCheck (name : String)
  | verifyCheck (name : String)
  | stopAll
  | notify
  | becomeBackup
  | start (name : String)
  | initiateFailover
  deriving DecidableEq, Repr

/-- One iteration of the while loop in `wait_for_containers_startup`:
the `time.time()` value at which the loop condition is evaluated, plus the
driver observation and timestamp for each containers status check in that
round. -/
structure WaitRound where
  tRound : Int
  obs : String → DockerRes
  tObs : String → Int

/-- Default timeout argument of `wait_for_containers_startup`. -/
def waitTimeout : Int := 300

/-- The inner for loop of one wait round: checks the containers in order,
breaking at the first one not running.  Returns (all-running, state). -/
def roundCheck (rd : WaitRound) : List String → MonitorState → Bool × MonitorState
  | [], st => (true, st)
  | c :: rest, st =>
      let r := get_container_status c (rd.obs c) (rd.tObs c) st
      if r.1 then roundCheck rd rest r.2 else (false, r.2)

/-- `ContainerMonitor.wait_for_containers_startup` (src/monitor.py lines
93-114): repeats rounds of status checks while `time.time() - start_time`
is below the timeout; returns true at the first round in which every
container is running, false once the timeout is reached (the supplied
round list is exhausted or a round starts past the timeout). -/
def wait_for_containers_startup (containers : List String) (t0 : Int) :
    List WaitRound → MonitorState → Bool × MonitorState
  | [], st => (false, st)
  | rd :: rest, st =>
      if rd.tRound - t0 < waitTimeout then
        let r := roundCheck rd containers st
        if r.1 then (true, r.2)
        else wait_for_containers_startup containers t0 rest r.2
      else (false, st)

/-- Environment for `start_all_containers`: per-container success of the
`get`/`start` call pair, the `time.time()` value written to
`container_start_time` after the starts, the `time.time()` value taken at
entry of `wait_for_containers_startup`, and the wait rounds. -/
structure StartEnv where
  startOk : String → Bool
  tStart : Int
  tWaitBase : Int
  waitRounds : List WaitRound

/-- Result of an embedded operation that returns a boolean: the boolean,
the state afterwards, and the recorded events. -/
structure MRes where
  ok : Bool
  st : MonitorState
  events : List Event

/-- `ContainerMonitor.start_all_containers` (src/monitor.py lines
127-141): starts the containers in order inside a try block (an exception
aborts and returns false); if all start calls succeed it updates
`container_start_time` to the current time and then waits for the
containers to be running, returning the wait outcome. -/
def start_all_containers (env : StartEnv) (containers : List String)
    (st : MonitorState) : MRes :=
  let started := (containers.takeWhile env.startOk).map Event.start
  if containers.all env.startOk then
    let st1 := { st with container_start_time := env.tStart }
    let r := wait_for_containers_startup containers env.tWaitBase env.waitRounds st1
    ⟨r.1, r.2, started⟩
  else ⟨false, st, started⟩

/-- `ContainerMonitor.become_primary` (src/monitor.py lines 162-165): sets
the role to PRIMARY, then delegates to `start_all_containers`. -/
def become_primary (env : StartEnv) (containers : List String)
    (st : MonitorState) : MRes :=
  start_all_containers env containers { st with role := ServerRole.PRIMARY }

/-! ## Heartbeat monitor (src/main.py, `HeartbeatMonitor`) -/

/-- `HeartbeatMonitor.initiate_failover` (src/main.py lines 24-37): under
the failover lock, if the role is BACKUP call `become_primary` and return
its result, otherwise return false without side effects. -/
def initiate_failover (env : StartEnv) (containers : List String)
    (st : MonitorState) : MRes :=
  if st.role = ServerRole.BACKUP then become_primary env containers st
  else ⟨false, st, []⟩

/-- One iteration of `HeartbeatMonitor.check_heartbeat` (src/main.py lines
54-65) with role BACKUP gating, the first-heartbeat guard
(`last_heartbeat > 0`) and the staleness comparison against
`heartbeat_timeout`; records an `initiateFailover` event when the call is
made. -/
def check_heartbeat_step (now lastHeartbeat : Int) (env : StartEnv)
    (containers : List String) (st : MonitorState) : MonitorState × List Event :=
  if st.role = ServerRole.BACKUP then
    if 0 < lastHeartbeat then
      if heartbeat_timeout < now - lastHeartbeat then
        let r := initiate_failover env containers st
        (r.st, Event.initiateFailover :: r.events)
      else (st, [])
    else (st, [])
  else (st, [])

/-! ## Primary health loop (src/main.py, `monitor_containers_wrapper`) -/

/-- Environment for the processing of one container in one cycle of the
primary health loop: the clock value and driver observation of
`should_check_container`, those of the initial `get_container_status`, the
inputs of `verify_container_health`, and the outcomes of the failure path
collaborator calls. -/
structure ContainerEnv where
  scTime : Int
  scGet : DockerRes
  stTime : Int
  stRes : DockerRes
  vT0 : Int
  vPolls : Nat → PollObs
  vTFinal : Int
  stopOk : StopEnv
  notifyRes : NotifyRes
  bkStopOk : StopEnv

/-- The primary-side failure path (src/main.py lines 152-162, executed
under the failover lock): stop all containers; only on success notify the
peer; only on notification success transition to backup. -/
def primaryFailurePath (stopOk : StopEnv) (nres : NotifyRes) (bkStopOk : StopEnv)
    (containers : List String) (st : MonitorState) : MonitorState × List Event :=
  if stop_all_containers stopOk containers then
    if notify_other_server nres then
      ((become_backup bkStopOk containers st).1,
        [Event.stopAll, Event.notify, Event.becomeBackup])
    else (st, [Event.stopAll, Event.notify])
  else (st, [Event.stopAll])

/-- The body of the for loop of `monitor_containers_wrapper` (src/main.py
lines 142-162) for one container: skip unless `should_check_container`,
then `get_container_status`, then on a down report
`verify_container_health`, then on confirmed failure the failure path. -/
def processContainer (containers : List String) (cenv : ContainerEnv)
    (name : String) (st : MonitorState) : MonitorState × List Event :=
  if should_check_container cenv.scTime cenv.scGet st then
    let r := get_container_status name cenv.stRes cenv.stTime st
    if r.1 then (r.2, [Event.statusCheck name])
    else
      let v := verify_container_health name cenv.vT0 cenv.vPolls cenv.vTFinal r.2
      if v.ok then (v.st, [Event.statusCheck name, Event.verifyCheck name])
      else
        let f := primaryFailurePath cenv.stopOk cenv.notifyRes cenv.bkStopOk containers v.st
        (f.1, Event.statusCheck name :: Event.verifyCheck name :: f.2)
  else (st, [])

/-- The for loop of `monitor_containers_wrapper` over the configured
containers (src/main.py lines 142-162): processes every name in order,
threading the state; it contains no break statement. -/
def cycleFor (containers : List String) (env : String → ContainerEnv) :
    List String → MonitorState → MonitorState × List Event
  | [], st => (st, [])
  | c :: rest, st =>
      let r := processContainer containers (env c) c st
      let r2 := cycleFor containers env rest r.1
      (r2.1, r.2 ++ r2.2)

/-- One iteration of the while loop of `monitor_containers_wrapper`
(src/main.py lines 140-164): the for loop runs only when the role is
PRIMARY. -/
def wrapperCycle (containers : List String) (env : String → ContainerEnv)
    (st : MonitorState) : MonitorState × List Event :=
  if st.role = ServerRole.PRIMARY then cycleFor containers env containers st
  else (st, [])

/-! ## Basic lemmas about the down-times map and status checks -/

theorem dtLookup_erase (l : DownTimes) (name : String) :
    dtLookup (dtErase l name) name = none := by
  induction l with
  | nil => rfl
  | cons p rest ih =>
      obtain ⟨k, v⟩ := p
      by_cases h : k = name
      · simp [dtErase, h, ih]
      · simp [dtErase, dtLookup, h, ih]

theorem dtLookup_append_last (l : DownTimes) (name : String) (v : Int)
    (h : dtLookup l name = none) :
    dtLookup (l ++ [(name, v)]) name = some v := by
  induction l with
  | nil => simp [dtLookup]
  | cons p rest ih =>
      obtain ⟨k, w⟩ := p
      by_cases hk : k = name
      · simp [dtLookup, hk] at h
      · simp [dtLookup, hk] at h ⊢
        exact ih h

theorem get_container_status_fst (name : String) (res : DockerRes) (now : Int)
    (st : MonitorState) :
    (get_container_status name res now st).1 = isRunningRes res := by
  cases res with
  | found s =>
      simp only [get_container_status, isRunningRes]
      split
      · next h => simp [h]
      · next h =>
          cases hd : dtLookup st.container_down_times name <;>
            simp_all
  | notFound => rfl
  | err => rfl

theorem get_container_status_preserves (name : String) (res : DockerRes)
    (now : Int) (st : MonitorState) :
    (get_container_status name res now st).2.role = st.role ∧
    (get_container_status name res now st).2.container_start_time
      = st.container_start_time := by
  cases res with
  | found s =>
      simp only [get_container_status]
      split
      · exact ⟨rfl, rfl⟩
      · split <;> exact ⟨rfl, rfl⟩
  | notFound => exact ⟨rfl, rfl⟩
  | err => exact ⟨rfl, rfl⟩

/-! ## Lemmas about the verification poll loop -/

theorem verifyLoop_preserves (name : String) (polls : Nat → PollObs) :
    ∀ (k i : Nat) (st : MonitorState),
      (verifyLoop name polls i k st).2.1.role = st.role ∧
      (verifyLoop name polls i k st).2.1.container_start_time
        = st.container_start_time := by
  intro k
  induction k with
  | zero => intro i st; exact ⟨rfl, rfl⟩
  | succ k ih =>
      intro i st
      simp only [verifyLoop]
      split
      · exact get_container_status_preserves name (polls i).res (polls i).t st
      · constructor
        · exact ((ih (i + 1) _).1).trans
            (get_container_status_preserves name (polls i).res (polls i).t st).1
        · exact ((ih (i + 1) _).2).trans
            (get_container_status_preserves name (polls i).res (polls i).t st).2

theorem verifyLoop_false (name : String) (polls : Nat → PollObs) :
    ∀ (k i : Nat) (st : MonitorState),
      (verifyLoop name polls i k st).1 = false →
      (verifyLoop name polls i k st).2.2 = k ∧
      ∀ j < k, isRunningRes (polls (i + j)).res = false := by
  intro k
  induction k with
  | zero => intro i st _; exact ⟨rfl, by omega⟩
  | succ k ih =>
      intro i st h
      simp only [verifyLoop] at h ⊢
      by_cases hc : (get_container_status name (polls i).res (polls i).t st).1 = true
      · rw [if_pos hc] at h
        simp at h
      · rw [if_neg hc] at h ⊢
        have hrun : isRunningRes (polls i).res = false := by
          have hf := get_container_status_fst name (polls i).res (polls i).t st
          rw [hf] at hc
          simpa using hc
        obtain ⟨hn, hall⟩ :=
          ih (i + 1) (get_container_status name (polls i).res (polls i).t st).2 h
        constructor
        · show (verifyLoop name polls (i + 1) k
              (get_container_status name (polls i).res (polls i).t st).2).2.2 + 1 = k + 1
          rw [hn]
        · intro j hj
          cases j with
          | zero => simpa using hrun
          | succ j =>
              have e : i + (j + 1) = i + 1 + j := by omega
              rw [e]
              exact hall j (by omega)

theorem verifyLoop_true (name : String) (polls : Nat → PollObs) :
    ∀ (k i : Nat) (st : MonitorState),
      (verifyLoop name polls i k st).1 = true →
      ∃ j < k, isRunningRes (polls (i + j)).res = true := by
  intro k
  induction k with
  | zero => intro i st h; exact absurd h (by simp [verifyLoop])
  | succ k ih =>
      intro i st h
      simp only [verifyLoop] at h
      split at h
      · next htrue =>
          refine ⟨0, by omega, ?_⟩
          have := get_container_status_fst name (polls i).res (polls i).t st
          simp only [this] at htrue
          simpa using htrue
      · obtain ⟨j, hj, hr⟩ := ih (i + 1) _ h
        refine ⟨j + 1, by omega, ?_⟩
        have e : i + (j + 1) = i + 1 + j := by omega
        rw [e]
        exact hr

theorem verifyLoop_notFound (name : String) (polls : Nat → PollObs) :
    ∀ (k i : Nat) (st : MonitorState),
      (∀ j < k, (polls (i + j)).res = DockerRes.notFound) →
      verifyLoop name polls i k st = (false, st, k) := by
  intro k
  induction k with
  | zero => intro i st _; rfl
  | succ k ih =>
      intro i st h
      have h0 : (polls i).res = DockerRes.notFound := by
        have := h 0 (by omega)
        simpa using this
      have hrest : ∀ j < k, (polls (i + 1 + j)).res = DockerRes.notFound := by
        intro j hj
        have e : i + 1 + j = i + (j + 1) := by omega
        rw [e]
        exact h (j + 1) (by omega)
      simp only [verifyLoop, h0, get_container_status]
      simp [ih (i + 1) st hrest]

/-! ## State-preservation of the health verifier -/

theorem verifyAfterGrace_start_time (name : String) (polls : Nat → PollObs)
    (tFinal : Int) (st : MonitorState) :
    (verifyAfterGrace name polls tFinal st).st.container_start_time
      = st.container_start_time := by
  simp only [verifyAfterGrace]
  split
  · exact (verifyLoop_preserves name polls consecutive_checks 0 st).2
  · split
    · split <;>
        exact (verifyLoop_preserves name polls consecutive_checks 0 st).2
    · split <;>
        exact (verifyLoop_preserves name polls consecutive_checks 0 st).2

theorem verify_container_health_start_time (name : String) (t0 : Int)
    (polls : Nat → PollObs) (tFinal : Int) (st : MonitorState) :
    (verify_container_health name t0 polls tFinal st).st.container_start_time
      = st.container_start_time := by
  simp only [verify_container_health]
  split
  · split
    · rfl
    · exact verifyAfterGrace_start_time name polls tFinal st
  · exact verifyAfterGrace_start_time name polls tFinal st

/-! ## Characterization of verify_container_health -/

theorem verifyAfterGrace_false_iff (name : String) (polls : Nat → PollObs)
    (tFinal : Int) (st : MonitorState) :
    (verifyAfterGrace name polls tFinal st).ok = false ↔
      ((verifyAfterGrace name polls tFinal st).npolls = consecutive_checks ∧
       (∀ i < consecutive_checks, isRunningRes (polls i).res = false) ∧
       restart_grace_period ≤ tFinal -
         (dtLookup (verifyAfterGrace name polls tFinal st).st.container_down_times
           name).getD 0) := by
  by_cases hr : (verifyLoop name polls 0 consecutive_checks st).1 = true
  · obtain ⟨j, hj, hrun⟩ := verifyLoop_true name polls consecutive_checks 0 st hr
    simp only [verifyAfterGrace, if_pos hr]
    constructor
    · intro h
      simp at h
    · rintro ⟨-, hall, -⟩
      have := hall j (by simpa using hj)
      rw [show (0 : Nat) + j = j from by omega] at hrun
      simp [this] at hrun
  · have hfalse : (verifyLoop name polls 0 consecutive_checks st).1 = false := by
      simpa using hr
    obtain ⟨hn, hall0⟩ := verifyLoop_false name polls consecutive_checks 0 st hfalse
    have hall : ∀ i < consecutive_checks, isRunningRes (polls i).res = false := by
      intro i hi
      simpa using hall0 i hi
    simp only [verifyAfterGrace, if_neg hr]
    cases hd : dtLookup
        (verifyLoop name polls 0 consecutive_checks st).2.1.container_down_times
        name with
    | some ds =>
        simp only [hd]
        by_cases hg : restart_grace_period ≤ tFinal - ds
        · rw [if_pos hg]
          simp [hd, hn, hg]
          exact hall
        · rw [if_neg hg]
          simp [hd, hg]
    | none =>
        have hlook : dtLookup
            ((verifyLoop name polls 0 consecutive_checks st).2.1.container_down_times
              ++ [(name, 0)]) name = some 0 :=
          dtLookup_append_last _ name 0 hd
        simp only [hd]
        by_cases hg : restart_grace_period ≤ tFinal - 0
        · rw [if_pos hg]
          have hg2 : restart_grace_period ≤ tFinal := by omega
          simp [hlook, hn, hg2]
          exact hall
        · rw [if_neg hg]
          have hg2 : ¬ restart_grace_period ≤ tFinal := by omega
          simp [hlook, hg2]

/-- Claim C2: verify_container_health returns false exactly when all
consecutive status polls were performed and each reported the workload
not running, and the elapsed time at the final re-check since the
recorded down-since timestamp (read through the defaultdict with default
0) is at least the restart grace period; in every other case it returns
true. -/
theorem verify_health_false_iff (name : String) (t0 : Int)
    (polls : Nat → PollObs) (tFinal : Int) (st : MonitorState) :
    (verify_container_health name t0 polls tFinal st).ok = false ↔
      ((verify_container_health name t0 polls tFinal st).npolls
          = consecutive_checks ∧
       (∀ i < consecutive_checks, isRunningRes (polls i).res = false) ∧
       restart_grace_period ≤ tFinal -
         (dtLookup (verify_container_health name t0 polls tFinal
             st).st.container_down_times name).getD 0) := by
  cases hd : dtLookup st.container_down_times name with
  | some ds =>
      by_cases hlt : t0 - ds < restart_grace_period
      · simp only [verify_container_health, hd]
        rw [if_pos hlt]
        constructor
        · intro h
          simp at h
        · rintro ⟨hn, -, -⟩
          simp [consecutive_checks] at hn
      · simp only [verify_container_health, hd]
        rw [if_neg hlt]
        exact verifyAfterGrace_false_iff name polls tFinal st
  | none =>
      simp only [verify_container_health, hd]
      exact verifyAfterGrace_false_iff name polls tFinal st

/-- Claim C6: when the workload has a down-time entry whose elapsed time
at the initial check is strictly below the restart grace period,
verify_container_health returns true with zero status polls performed and
an unchanged state, whatever the polls would have reported. -/
theorem verify_health_grace_short_circuit (name : String) (t0 : Int)
    (polls : Nat → PollObs) (tFinal : Int) (st : MonitorState) (ds : Int)
    (hds : dtLookup st.container_down_times name = some ds)
    (hlt : t0 - ds < restart_grace_period) :
    verify_container_health name t0 polls tFinal st = ⟨true, st, 0⟩ := by
  simp only [verify_container_health, hds]
  rw [if_pos hlt]

/-- Claim C9: with no down-time entry and every status poll reporting the
container as not found (so no down-time is ever recorded by the polls),
the final grace re-check reads the down-times defaultdict, inserts the
default entry 0 as a side effect, and verify_container_health confirms the
failure whenever the final timestamp is at least the restart grace
period. -/
theorem verify_health_defaultdict_confirm (name : String) (t0 : Int)
    (polls : Nat → PollObs) (tFinal : Int) (st : MonitorState)
    (hnone : dtLookup st.container_down_times name = none)
    (hpolls : ∀ i < consecutive_checks, (polls i).res = DockerRes.notFound)
    (hfin : restart_grace_period ≤ tFinal) :
    verify_container_health name t0 polls tFinal st =
      ⟨false,
        { st with container_down_times := st.container_down_times ++ [(name, 0)] },
        consecutive_checks⟩ ∧
    dtLookup (verify_container_health name t0 polls tFinal
        st).st.container_down_times name = some 0 := by
  have hpolls0 : ∀ j < consecutive_checks, (polls (0 + j)).res = DockerRes.notFound := by
    intro j hj
    simpa using hpolls j hj
  have hloop := verifyLoop_notFound name polls consecutive_checks 0 st hpolls0
  have hfin2 : restart_grace_period ≤ tFinal - 0 := by simpa using hfin
  have hmain : verify_container_health name t0 polls tFinal st =
      ⟨false,
        { st with container_down_times := st.container_down_times ++ [(name, 0)] },
        consecutive_checks⟩ := by
    simp only [verify_container_health, hnone, verifyAfterGrace, hloop]
    simp [hnone, hfin, hfin2]
  refine ⟨hmain, ?_⟩
  rw [hmain]
  exact dtLookup_append_last _ name 0 hnone

/-! ## Concrete example inputs -/

def exDownSt : MonitorState := ⟨ServerRole.PRIMARY, 0, [("web", 100)]⟩

def exEmptySt : MonitorState := ⟨ServerRole.PRIMARY, 0, []⟩

def exStoppedPolls : Nat → PollObs := fun _ => ⟨DockerRes.found "exited", 110⟩

def exNotFoundPolls : Nat → PollObs := fun _ => ⟨DockerRes.notFound, 100⟩

/-- Witness for claim C6 at a concrete input: entry recorded at 100,
checked at 110, grace period 30. -/
theorem verify_health_grace_short_circuit_witness :
    verify_container_health "web" 110 exStoppedPolls 110 exDownSt
      = ⟨true, exDownSt, 0⟩ :=
  verify_health_grace_short_circuit "web" 110 exStoppedPolls 110 exDownSt 100
    (by decide) (by decide)

/-- Witness for claim C9 at a concrete input: no entry, three not-found
polls, final time 110. -/
theorem verify_health_defaultdict_confirm_witness :
    verify_container_health "web" 100 exNotFoundPolls 110 exEmptySt =
      ⟨false, ⟨ServerRole.PRIMARY, 0, [("web", 0)]⟩, consecutive_checks⟩ ∧
    dtLookup (verify_container_health "web" 100 exNotFoundPolls 110
        exEmptySt).st.container_down_times "web" = some 0 :=
  verify_health_defaultdict_confirm "web" 100 exNotFoundPolls 110 exEmptySt
    (by decide) (fun _ _ => rfl) (by decide)

/-! ## The startup wait loop -/

/-- Whether one wait round observes every container of the list as
running. -/
def allRunningRound (containers : List String) (rd : WaitRound) : Bool :=
  containers.all fun c => isRunningRes (rd.obs c)

/-- Spec-side success condition of the startup wait: some round observes
every container running, and that round and all rounds before it begin
within the timeout. -/
def waitSucceedsSpec (containers : List String) (t0 : Int)
    (rounds : List WaitRound) : Prop :=
  ∃ pre rd post, rounds = pre ++ rd :: post ∧
    (∀ r ∈ pre ++ [rd], r.tRound - t0 < waitTimeout) ∧
    allRunningRound containers rd = true

theorem roundCheck_fst (rd : WaitRound) :
    ∀ (containers : List String) (st : MonitorState),
      (roundCheck rd containers st).1 = allRunningRound containers rd := by
  intro containers
  induction containers with
  | nil => intro st; rfl
  | cons c rest ih =>
      intro st
      simp only [roundCheck]
      have hf := get_container_status_fst c (rd.obs c) (rd.tObs c) st
      by_cases hc : isRunningRes (rd.obs c) = true
      · rw [if_pos (hf.trans hc)]
        rw [ih]
        simp [allRunningRound, hc]
      · have hcf : isRunningRes (rd.obs c) = false := by simpa using hc
        rw [if_neg (by rw [hf]; exact hc)]
        simp [allRunningRound, hcf]

theorem roundCheck_preserves (rd : WaitRound) :
    ∀ (containers : List String) (st : MonitorState),
      (roundCheck rd containers st).2.role = st.role ∧
      (roundCheck rd containers st).2.container_start_time
        = st.container_start_time := by
  intro containers
  induction containers with
  | nil => intro st; exact ⟨rfl, rfl⟩
  | cons c rest ih =>
      intro st
      simp only [roundCheck]
      have hp := get_container_status_preserves c (rd.obs c) (rd.tObs c) st
      split
      · exact ⟨((ih _).1).trans hp.1, ((ih _).2).trans hp.2⟩
      · exact hp

theorem wait_preserves (containers : List String) (t0 : Int) :
    ∀ (rounds : List WaitRound) (st : MonitorState),
      (wait_for_containers_startup containers t0 rounds st).2.role = st.role ∧
      (wait_for_containers_startup containers t0 rounds st).2.container_start_time
        = st.container_start_time := by
  intro rounds
  induction rounds with
  | nil => intro st; exact ⟨rfl, rfl⟩
  | cons rd rest ih =>
      intro st
      simp only [wait_for_containers_startup]
      have hp := roundCheck_preserves rd containers st
      split
      · split
        · exact hp
        · exact ⟨((ih _).1).trans hp.1, ((ih _).2).trans hp.2⟩
      · exact ⟨rfl, rfl⟩

theorem wait_true_iff (containers : List String) (t0 : Int) :
    ∀ (rounds : List WaitRound) (st : MonitorState),
      (wait_for_containers_startup containers t0 rounds st).1 = true ↔
        waitSucceedsSpec containers t0 rounds := by
  intro rounds
  induction rounds with
  | nil =>
      intro st
      constructor
      · intro h
        simp [wait_for_containers_startup] at h
      · rintro ⟨pre, rd, post, heq, -, -⟩
        cases pre <;> simp at heq
  | cons rd0 rest ih =>
      intro st
      simp only [wait_for_containers_startup]
      by_cases ht : rd0.tRound - t0 < waitTimeout
      · rw [if_pos ht]
        by_cases ha : allRunningRound containers rd0 = true
        · have h1 : (roundCheck rd0 containers st).1 = true := by
            rw [roundCheck_fst]
            exact ha
          rw [if_pos h1]
          constructor
          · intro _
            refine ⟨[], rd0, rest, rfl, ?_, ha⟩
            intro r hr
            simp at hr
            subst hr
            exact ht
          · intro _
            rfl
        · have h1 : ¬ (roundCheck rd0 containers st).1 = true := by
            rw [roundCheck_fst]
            exact ha
          rw [if_neg h1]
          rw [ih]
          constructor
          · rintro ⟨pre, rd, post, heq, hin, hall⟩
            refine ⟨rd0 :: pre, rd, post, by simp [heq], ?_, hall⟩
            intro r hr
            simp only [List.cons_append, List.mem_cons] at hr
            rcases hr with hr | hr
            · subst hr
              exact ht
            · exact hin r (by simpa using hr)
          · rintro ⟨pre, rd, post, heq, hin, hall⟩
            cases pre with
            | nil =>
                simp at heq
                obtain ⟨h1, -⟩ := heq
                subst h1
                exact absurd hall ha
            | cons p pre2 =>
                simp at heq
                obtain ⟨hp, hrest⟩ := heq
                refine ⟨pre2, rd, post, hrest, ?_, hall⟩
                intro r hr
                exact hin r (by simp [hr])
      · rw [if_neg ht]
        constructor
        · intro h
          simp at h
        · rintro ⟨pre, rd, post, heq, hin, hall⟩
          cases pre with
          | nil =>
              simp at heq
              obtain ⟨h1, -⟩ := heq
              subst h1
              exact absurd (hin rd0 (by simp)) ht
          | cons p pre2 =>
              simp at heq
              obtain ⟨hp, -⟩ := heq
              subst hp
              exact absurd (hin rd0 (by simp)) ht

/-! ## Claims about the role transitions and failover entry point -/

/-- Claim C5: become_primary sets the role to PRIMARY unconditionally
(the role stays PRIMARY even on a false return), and it returns true
exactly when every start call succeeded and some wait round within the
timeout observed all containers running. -/
theorem become_primary_spec (env : StartEnv) (containers : List String)
    (st : MonitorState) :
    (become_primary env containers st).st.role = ServerRole.PRIMARY ∧
    ((become_primary env containers st).ok = true ↔
      ((∀ c ∈ containers, env.startOk c = true) ∧
        waitSucceedsSpec containers env.tWaitBase env.waitRounds)) := by
  simp only [become_primary, start_all_containers]
  by_cases hs : containers.all env.startOk = true
  · rw [if_pos hs]
    constructor
    · exact (wait_preserves containers env.tWaitBase env.waitRounds _).1
    · rw [wait_true_iff]
      rw [List.all_eq_true] at hs
      constructor
      · intro h
        exact ⟨hs, h⟩
      · rintro ⟨-, h⟩
        exact h
  · rw [if_neg hs]
    rw [List.all_eq_true] at hs
    simp [hs]

/-- Claim C4: initiate_failover with a role other than BACKUP returns
false with the state unchanged and no start events; with role BACKUP it
is exactly become_primary on the owned containers. -/
theorem initiate_failover_guard (env : StartEnv) (containers : List String)
    (st : MonitorState) :
    (st.role ≠ ServerRole.BACKUP →
        initiate_failover env containers st = ⟨false, st, []⟩) ∧
    (st.role = ServerRole.BACKUP →
        initiate_failover env containers st = become_primary env containers st) := by
  constructor
  · intro h
    simp [initiate_failover, h]
  · intro h
    simp [initiate_failover, h]

/-- Claim C3: the primary-side failure path calls stop_all_containers;
only on success does it call notify_other_server; only on a successful
notification does it call become_backup; on either error branch the state
(and hence the PRIMARY role) is unchanged. -/
theorem primary_failure_path_conditional (stopOk : StopEnv) (nres : NotifyRes)
    (bkStopOk : StopEnv) (containers : List String) (st : MonitorState) :
    (stop_all_containers stopOk containers = false →
      primaryFailurePath stopOk nres bkStopOk containers st
        = (st, [Event.stopAll])) ∧
    (stop_all_containers stopOk containers = true →
      notify_other_server nres = false →
      primaryFailurePath stopOk nres bkStopOk containers st
        = (st, [Event.stopAll, Event.notify])) ∧
    (stop_all_containers stopOk containers = true →
      notify_other_server nres = true →
      primaryFailurePath stopOk nres bkStopOk containers st
        = ({ st with role := ServerRole.BACKUP },
            [Event.stopAll, Event.notify, Event.becomeBackup])) := by
  refine ⟨?_, ?_, ?_⟩
  · intro h
    simp [primaryFailurePath, h]
  · intro h1 h2
    simp [primaryFailurePath, h1, h2]
  · intro h1 h2
    simp [primaryFailurePath, h1, h2, become_backup]

/-- Claim C8: one staleness-loop iteration calls initiate_failover exactly
when the role is BACKUP, at least one heartbeat was received (positive
last-heartbeat timestamp) and the elapsed time since it strictly exceeds
the heartbeat timeout; with a zero last-heartbeat timestamp nothing
happens. -/
theorem check_heartbeat_trigger_iff (now lastHeartbeat : Int) (env : StartEnv)
    (containers : List String) (st : MonitorState) :
    (Event.initiateFailover ∈ (check_heartbeat_step now lastHeartbeat env
        containers st).2 ↔
      (st.role = ServerRole.BACKUP ∧ 0 < lastHeartbeat ∧
        heartbeat_timeout < now - lastHeartbeat)) ∧
    (lastHeartbeat = 0 →
      (check_heartbeat_step now lastHeartbeat env containers st).2 = []) := by
  constructor
  · by_cases h1 : st.role = ServerRole.BACKUP
    · by_cases h2 : 0 < lastHeartbeat
      · by_cases h3 : heartbeat_timeout < now - lastHeartbeat
        · simp [check_heartbeat_step, h1, h2, h3]
        · simp [check_heartbeat_step, h1, h2, h3]
      · simp [check_heartbeat_step, h1, h2]
    · simp [check_heartbeat_step, h1]
  · intro h
    simp [check_heartbeat_step, h]

/-! ## Witnesses for the transition claims -/

def exStartEnv : StartEnv := ⟨fun _ => true, 50, 50, []⟩

def exBackupSt : MonitorState := ⟨ServerRole.BACKUP, 0, []⟩

/-- Witness for claim C4: a PRIMARY node does not re-initiate failover. -/
theorem initiate_failover_guard_witness :
    initiate_failover exStartEnv ["c1"] exEmptySt = ⟨false, exEmptySt, []⟩ :=
  (initiate_failover_guard exStartEnv ["c1"] exEmptySt).1 (by decide)

/-- Witness for claim C3: when stopping fails the failure path performs no
notification and leaves the state unchanged. -/
theorem primary_failure_path_conditional_witness :
    primaryFailurePath (fun _ => false) NotifyRes.err (fun _ => true) ["c1"]
      exDownSt = (exDownSt, [Event.stopAll]) :=
  (primary_failure_path_conditional (fun _ => false) NotifyRes.err
    (fun _ => true) ["c1"] exDownSt).1 rfl

/-- Witness for claim C8: before any heartbeat was received the staleness
check does nothing. -/
theorem check_heartbeat_trigger_iff_witness :
    (check_heartbeat_step 100 0 exStartEnv ["c1"] exBackupSt).2 = [] :=
  (check_heartbeat_trigger_iff 100 0 exStartEnv ["c1"] exBackupSt).2 rfl

/-! ## Down-time tracker round-trip -/

theorem get_status_running (name : String) (t : Int) (st : MonitorState) :
    (get_container_status name (DockerRes.found "running") t st).2
      = { st with container_down_times := dtErase st.container_down_times name } := by
  simp [get_container_status]

theorem get_status_stopped_absent (name s : String) (t : Int) (st : MonitorState)
    (hsf : (s == "running") = false)
    (hnone : dtLookup st.container_down_times name = none) :
    (get_container_status name (DockerRes.found s) t st).2
      = { st with container_down_times := st.container_down_times ++ [(name, t)] } := by
  simp [get_container_status, hsf, hnone]

/-- Claim C7: the down-time tracker round-trip through
get_container_status: a running observation removes the entry; a stopped
observation with no entry records the observation time; a stopped
observation with an existing entry keeps the old timestamp untouched; and
running followed by stopped always yields a fresh entry stamped with the
second observation time, never a stale one. -/
theorem down_tracker_round_trip (name : String) (st : MonitorState) :
    (∀ t, dtLookup (get_container_status name (DockerRes.found "running") t
        st).2.container_down_times name = none) ∧
    (∀ s t, (s == "running") = false →
      dtLookup st.container_down_times name = none →
      dtLookup (get_container_status name (DockerRes.found s) t
          st).2.container_down_times name = some t) ∧
    (∀ s t ds, (s == "running") = false →
      dtLookup st.container_down_times name = some ds →
      (get_container_status name (DockerRes.found s) t st).2 = st) ∧
    (∀ s t1 t2, (s == "running") = false →
      dtLookup (get_container_status name (DockerRes.found s) t2
          (get_container_status name (DockerRes.found "running") t1
            st).2).2.container_down_times name = some t2) := by
  refine ⟨?_, ?_, ?_, ?_⟩
  · intro t
    rw [get_status_running]
    exact dtLookup_erase _ _
  · intro s t hsf hnone
    rw [get_status_stopped_absent name s t st hsf hnone]
    exact dtLookup_append_last _ _ _ hnone
  · intro s t ds hsf hds
    simp [get_container_status, hsf, hds]
  · intro s t1 t2 hsf
    rw [get_status_running]
    have hnone : dtLookup (dtErase st.container_down_times name) name = none :=
      dtLookup_erase _ _
    rw [get_status_stopped_absent name s t2 _ hsf hnone]
    exact dtLookup_append_last _ _ _ hnone

/-- Witness for claim C7: container down since 100, observed running at
150, observed stopped again at 200: the entry is 200, not 100. -/
theorem down_tracker_round_trip_witness :
    dtLookup (get_container_status "web" (DockerRes.found "exited") 200
        (get_container_status "web" (DockerRes.found "running") 150
          exDownSt).2).2.container_down_times "web" = some 200 :=
  (down_tracker_round_trip "web" exDownSt).2.2.2 "exited" 150 200 rfl

/-! ## Startup grace restart after start_all_containers -/

/-- Claim C10: whenever every start call succeeds, start_all_containers
stamps container_start_time with the post-start clock value before the
wait, and keeps it even when the wait fails, so within the restarted
startup grace period should_check_container is false for every container
and the health-loop body skips the container entirely. -/
theorem start_all_restarts_grace (env : StartEnv) (containers : List String)
    (st : MonitorState)
    (h : containers.all env.startOk = true) :
    (start_all_containers env containers st).st.container_start_time = env.tStart ∧
    (∀ now res, now - env.tStart < startup_grace_period →
      should_check_container now res (start_all_containers env containers st).st
        = false) ∧
    (∀ cenv name containers2, cenv.scTime - env.tStart < startup_grace_period →
      processContainer containers2 cenv name
          (start_all_containers env containers st).st
        = ((start_all_containers env containers st).st, [])) := by
  have hstart : (start_all_containers env containers st).st.container_start_time
      = env.tStart := by
    simp only [start_all_containers, if_pos h]
    exact (wait_preserves containers env.tWaitBase env.waitRounds _).2
  have h2 : ∀ now res, now - env.tStart < startup_grace_period →
      should_check_container now res (start_all_containers env containers st).st
        = false := by
    intro now res hlt
    simp only [should_check_container, hstart]
    rw [if_pos hlt]
  refine ⟨hstart, h2, ?_⟩
  intro cenv name containers2 hlt
  have hsc := h2 cenv.scTime cenv.scGet hlt
  simp [processContainer, hsc]

/-- Witness for claim C10: one container started successfully at time 50
with a wait that immediately times out (returning false); at time 60 the
check is still skipped. -/
theorem start_all_restarts_grace_witness :
    (start_all_containers exStartEnv ["c1"] exEmptySt).st.container_start_time
      = 50 ∧
    should_check_container 60 (DockerRes.found "running")
      (start_all_containers exStartEnv ["c1"] exEmptySt).st = false :=
  ⟨(start_all_restarts_grace exStartEnv ["c1"] exEmptySt rfl).1,
   (start_all_restarts_grace exStartEnv ["c1"] exEmptySt rfl).2.1 60
     (DockerRes.found "running") (by decide)⟩

/-! ## The primary health loop does not stop at a confirmed failure -/

/-- Environment for the claim C1 counterexample: both containers exist,
report exited on every observation (down since timestamp 0, far beyond
the 30s restart grace period at clock 100..110), stopping succeeds and
the peer notification fails. -/
def exEnvC1 : String → ContainerEnv := fun _ =>
  { scTime := 100, scGet := DockerRes.found "exited",
    stTime := 100, stRes := DockerRes.found "exited",
    vT0 := 100, vPolls := fun _ => ⟨DockerRes.found "exited", 100⟩,
    vTFinal := 110,
    stopOk := fun _ => true, notifyRes := NotifyRes.err,
    bkStopOk := fun _ => true }

def exStC1 : MonitorState := ⟨ServerRole.PRIMARY, 0, [("c1", 0), ("c2", 0)]⟩

/-- Counterexample to claim C1 as stated: in one cycle with two owned
containers both confirmed down and peer notification failing, the loop
performs two failover attempts (two stop-all invocations) and still
status-checks the second container after the first confirmed failure;
the for loop has no break. -/
theorem cycle_does_not_stop_counterexample :
    (wrapperCycle ["c1", "c2"] exEnvC1 exStC1).2.count Event.stopAll = 2 ∧
    Event.statusCheck "c2" ∈ (wrapperCycle ["c1", "c2"] exEnvC1 exStC1).2 := by
  decide

/-- Recognizer for status-check events. -/
def isStatusCheckEvent : Event → Bool
  | .statusCheck _ => true
  | _ => false

theorem primaryFailurePath_start_time (stopOk : StopEnv) (nres : NotifyRes)
    (bkStopOk : StopEnv) (containers : List String) (st : MonitorState) :
    (primaryFailurePath stopOk nres bkStopOk containers st).1.container_start_time
      = st.container_start_time := by
  simp only [primaryFailurePath]
  split
  · split
    · simp [become_backup]
    · rfl
  · rfl

theorem processContainer_start_time (containers : List String)
    (cenv : ContainerEnv) (name : String) (st : MonitorState) :
    (processContainer containers cenv name st).1.container_start_time
      = st.container_start_time := by
  simp only [processContainer]
  split
  · split
    · exact (get_container_status_preserves _ _ _ _).2
    · split
      · exact (verify_container_health_start_time _ _ _ _ _).trans
          ((get_container_status_preserves _ _ _ _).2)
      · exact (primaryFailurePath_start_time _ _ _ _ _).trans
          (((verify_container_health_start_time _ _ _ _ _)).trans
            ((get_container_status_preserves _ _ _ _).2))
  · rfl

theorem should_check_container_congr (now : Int) (g : DockerRes)
    (st1 st2 : MonitorState)
    (h : st1.container_start_time = st2.container_start_time) :
    should_check_container now g st1 = should_check_container now g st2 := by
  simp [should_check_container, h]

theorem primaryFailurePath_no_statusCheck (stopOk : StopEnv) (nres : NotifyRes)
    (bkStopOk : StopEnv) (containers : List String) (st : MonitorState) :
    (primaryFailurePath stopOk nres bkStopOk containers st).2.filter
      isStatusCheckEvent = [] := by
  simp only [primaryFailurePath]
  split
  · split
    · rfl
    · rfl
  · rfl

theorem processContainer_statusChecks (containers : List String)
    (cenv : ContainerEnv) (name : String) (st : MonitorState) :
    (processContainer containers cenv name st).2.filter isStatusCheckEvent
      = if should_check_container cenv.scTime cenv.scGet st
          then [Event.statusCheck name] else [] := by
  simp only [processContainer]
  by_cases hsc : should_check_container cenv.scTime cenv.scGet st = true
  · rw [if_pos hsc, if_pos hsc]
    split
    · rfl
    · split
      · rfl
      · simp [isStatusCheckEvent, primaryFailurePath_no_statusCheck]
  · rw [if_neg hsc, if_neg hsc]
    rfl

theorem cycleFor_statusChecks (containers : List String)
    (env : String → ContainerEnv) :
    ∀ (names : List String) (st : MonitorState),
      (cycleFor containers env names st).2.filter isStatusCheckEvent
        = (names.filter fun c =>
            should_check_container (env c).scTime (env c).scGet st).map
              Event.statusCheck := by
  intro names
  induction names with
  | nil => intro st; rfl
  | cons c rest ih =>
      intro st
      simp only [cycleFor]
      rw [List.filter_append, processContainer_statusChecks, ih]
      have hst : (processContainer containers (env c) c st).1.container_start_time
          = st.container_start_time :=
        processContainer_start_time containers (env c) c st
      have hcongr : ∀ x : String,
          should_check_container (env x).scTime (env x).scGet
            (processContainer containers (env c) c st).1
          = should_check_container (env x).scTime (env x).scGet st := by
        intro x
        exact should_check_container_congr _ _ _ _ hst
      simp only [hcongr]
      by_cases hsc : should_check_container (env c).scTime (env c).scGet st = true
      · rw [if_pos hsc]
        simp [List.filter_cons, hsc]
      · rw [if_neg hsc]
        simp [List.filter_cons, hsc]

/-- Claim C1 amended: with role PRIMARY, one cycle of the health loop
status-checks every owned workload that passes should_check_container, in
order, regardless of confirmed failures among earlier workloads: the loop
does not stop at a confirmed failure, and each confirmed failure runs its
own failure path over the full workload set. -/
theorem cycle_checks_every_eligible (containers : List String)
    (env : String → ContainerEnv) (st : MonitorState)
    (h : st.role = ServerRole.PRIMARY) :
    (wrapperCycle containers env st).2.filter isStatusCheckEvent
      = (containers.filter fun c =>
          should_check_container (env c).scTime (env c).scGet st).map
            Event.statusCheck := by
  simp only [wrapperCycle, if_pos h]
  exact cycleFor_statusChecks containers env containers st

/-- Witness for the amended claim C1: both containers of the
counterexample cycle get status-checked. -/
theorem cycle_checks_every_eligible_witness :
    (wrapperCycle ["c1", "c2"] exEnvC1 exStC1).2.filter isStatusCheckEvent
      = [Event.statusCheck "c1", Event.statusCheck "c2"] :=
  (cycle_checks_every_eligible ["c1", "c2"] exEnvC1 exStC1 rfl).trans (by decide)

end FailoverAgent
